import Mathlib

/-!
Shallow embedding of the `stalker` process tracer (src/main.rs, src/syscalls.rs).

The tracer either attaches to an existing process (`-p <pid>`) or forks and
execs a command with tracing enabled, then loops: resume the tracee to its next
syscall boundary (PTRACE_SYSCALL), wait, and on every second stop read the
registers (PTRACE_GETREGS) and print one report line; a wait status whose low
seven bits are zero terminates the loop with an exit notice.

Modelling conventions:
* `u64` register values are `Nat` (raw, uninterpreted).
* The `i64` wait status is an `Int`; `status & 0x7f` and `(status >> 8) & 0xff`
  from main.rs are `Int.land` / `>>>`, whose two's-complement semantics match
  Rust's `&` and arithmetic `>>` on `i64`.
* The kernel side (values written by wait4, registers returned by
  PTRACE_GETREGS, return values of fork/ptrace/execve) is supplied as explicit
  inputs, one `WaitObservation` per loop iteration.
* The syscall table (a `HashMap<u64, String>` built from bundled JSON) is an
  abstract lookup `Nat → Option String`; the `syscall_table[&key]` indexing in
  main.rs panics when the key is absent, which the step model makes explicit.
* Rust panics (`unwrap` on a parse error, out-of-bounds indexing, missing
  HashMap key) abort the whole process; they are explicit outcome constructors.
-/

namespace Stalker

/-- The x86_64 user-space register file read by PTRACE_GETREGS
(`UserRegsStruct` in src/syscalls.rs): 27 raw unsigned 64-bit fields,
in the source's declaration order, with no interpretation applied. -/
structure UserRegsStruct where
  r15 : Nat
  r14 : Nat
  r13 : Nat
  r12 : Nat
  rbp : Nat
  rbx : Nat
  r11 : Nat
  r10 : Nat
  r9 : Nat
  r8 : Nat
  rax : Nat
  rcx : Nat
  rdx : Nat
  rsi : Nat
  rdi : Nat
  orig_rax : Nat
  rip : Nat
  cs : Nat
  eflags : Nat
  rsp : Nat
  ss : Nat
  fs_base : Nat
  gs_base : Nat
  ds : Nat
  es : Nat
  fs : Nat
  gs : Nat
deriving DecidableEq

/-- "holds system call id for the system call that was invoked"
(comment on `orig_rax` in src/syscalls.rs). -/
def UserRegsStruct.syscallId (r : UserRegsStruct) : Nat := r.orig_rax

/-- "first argument to the system call is stored here" (comment on `rdi`). -/
def UserRegsStruct.firstArg (r : UserRegsStruct) : Nat := r.rdi

/-- "second argument to the system call is stored here" (comment on `rsi`). -/
def UserRegsStruct.secondArg (r : UserRegsStruct) : Nat := r.rsi

/-- "third argument to the system call is stored here" (comment on `rdx`). -/
def UserRegsStruct.thirdArg (r : UserRegsStruct) : Nat := r.rdx

/-- "fourth argument to the system call is stored here" (comment on `r10`). -/
def UserRegsStruct.fourthArg (r : UserRegsStruct) : Nat := r.r10

/-- "holds the result of the system call during exit" (comment on `rax`). -/
def UserRegsStruct.result (r : UserRegsStruct) : Nat := r.rax

/-- One loop iteration's kernel-provided data: the wait status written by
`sys_wait4` and the register file PTRACE_GETREGS would copy out at this stop
(only consulted when the stop is reported). -/
structure WaitObservation where
  status : Int
  regs : UserRegsStruct
deriving DecidableEq

/-- Rust's `{:x}` formatting of a `u64`: lowercase hexadecimal digits, no
prefix, no padding (`Nat.toDigits 16` uses lowercase letters and renders `0`
as `"0"`). -/
def rustHex (n : Nat) : String := (Nat.toDigits 16 n).asString

/-- The syscall report of main.rs line 168:
`println!("[{}] {}({:x}, {:x}, {:x}, ...) = {:x}", tracee_pid,
syscall_table[&regs.orig_rax], regs.rdi, regs.rsi, regs.rdx, regs.rax)`. -/
def syscallReportLine (tracee_pid : Nat) (name : String) (regs : UserRegsStruct) : String :=
  "[" ++ toString tracee_pid ++ "] " ++ name ++ "(" ++ rustHex regs.rdi ++ ", " ++
    rustHex regs.rsi ++ ", " ++ rustHex regs.rdx ++ ", ...) = " ++ rustHex regs.rax

/-- The exit notice of main.rs line 144:
`println!("child exited with status: {}", (status >> 8) & 0xff)`. -/
def exitReportLine (status : Int) : String :=
  "child exited with status: " ++ toString (Int.land (status >>> (8 : Int)) 0xff)

/-- Result of one iteration of the trace loop body (main.rs lines 129-182). -/
inductive StepResult where
  /-- `(status & 0x7f) == 0`: the exit notice is printed and the loop breaks. -/
  | exited (line : String)
  /-- `syscall_table[&regs.orig_rax]` with an absent key: the HashMap `Index`
  panics, aborting the whole tracer process. -/
  | panicked (missingId : Nat)
  /-- The iteration completes: `emitted` is the line printed (if any) and
  `is_sys_exit` the toggle's value for the next iteration. -/
  | continued (emitted : Option String) (is_sys_exit : Bool)
deriving DecidableEq

/-- The line printed by a step, when the iteration completed normally. -/
def StepResult.emitted : StepResult → Option String
  | .continued em _ => em
  | _ => none

/-- One iteration of the trace loop: after `sys_ptrace(24, ...)` (resume to
next syscall boundary) and `sys_wait4` produce `o.status`, main.rs tests
`(status & 0x7f) == 0`, reports when `is_sys_exit` is set, and toggles the
flag (main.rs lines 129-182). -/
def traceStep (syscall_table : Nat → Option String) (tracee_pid : Nat)
    (is_sys_exit : Bool) (o : WaitObservation) : StepResult :=
  if Int.land o.status 0x7f = 0 then
    StepResult.exited (exitReportLine o.status)
  else if is_sys_exit then
    match syscall_table o.regs.orig_rax with
    | none => StepResult.panicked o.regs.orig_rax
    | some name =>
        StepResult.continued (some (syscallReportLine tracee_pid name o.regs)) (!is_sys_exit)
  else
    StepResult.continued none (!is_sys_exit)

/-- How a run of the trace loop over a finite list of observations ended. -/
inductive LoopEnd where
  /-- The `break` after printing the exit notice. -/
  | exited
  /-- The tracer process aborted in a HashMap-index panic on `missingId`. -/
  | aborted (missingId : Nat)
  /-- The supplied observations ran out with the loop still going; carries the
  current value of the `is_sys_exit` toggle. -/
  | ranOut (is_sys_exit : Bool)
deriving DecidableEq

/-- Everything a run of the trace loop produces: the stdout lines in order,
and how it ended. -/
structure TraceResult where
  lines : List String
  final : LoopEnd
deriving DecidableEq

/-- The trace loop of main.rs (lines 129-182) driven by a finite list of wait
observations, starting from a given value of the `is_sys_exit` toggle. -/
def traceLoop (syscall_table : Nat → Option String) (tracee_pid : Nat)
    (is_sys_exit : Bool) : List WaitObservation → TraceResult
  | [] => ⟨[], LoopEnd.ranOut is_sys_exit⟩
  | o :: rest =>
    match traceStep syscall_table tracee_pid is_sys_exit o with
    | .exited line => ⟨[line], LoopEnd.exited⟩
    | .panicked i => ⟨[], LoopEnd.aborted i⟩
    | .continued em flag =>
        let r := traceLoop syscall_table tracee_pid flag rest
        ⟨em.toList ++ r.lines, r.final⟩

/-- The trace loop as entered by main: `is_sys_exit` starts out `false`
(main.rs line 126), so the first stop is treated as a syscall entry. -/
def runTrace (syscall_table : Nat → Option String) (tracee_pid : Nat)
    (obss : List WaitObservation) : TraceResult :=
  traceLoop syscall_table tracee_pid false obss

/-- The report the loop prints for an observation at a reporting (exit) stop,
if its identifier resolves: resolve `orig_rax` in the table, then format. -/
def reportOf (syscall_table : Nat → Option String) (tracee_pid : Nat)
    (o : WaitObservation) : Option String :=
  (syscall_table o.regs.orig_rax).map (fun name => syscallReportLine tracee_pid name o.regs)

/-- Rust's `str::parse::<u64>()`: an optional leading `+` sign followed by at
least one ASCII decimal digit, with the value required to fit in 64 bits;
anything else is a parse error (`none`). -/
def parseU64 (s : String) : Option Nat :=
  let digits :=
    match s.data with
    | '+' :: rest => rest
    | l => l
  if digits ≠ [] ∧ digits.all Char.isDigit then
    let v := digits.foldl (fun acc c => acc * 10 + (c.toNat - 48)) 0
    if v < 2 ^ 64 then some v else none
  else
    none

/-- How the setup phase of main.rs (lines 13-97, before the initial wait)
ends for the process that runs it. -/
inductive SetupResult where
  /-- The tracer reaches the initial wait and the trace loop with this
  `tracee_pid`. -/
  | traced (tracee_pid : Nat)
  /-- `cmd[1].parse::<u64>().unwrap()` panicked on a malformed pid
  (main.rs line 24): the tracer aborts with a panic diagnostic. -/
  | tracerPanicked
  /-- The tracer printed `msg` on stderr and called
  `std::process::exit(code)` (main.rs lines 91-92). -/
  | tracerFatal (msg : String) (code : Nat)
  /-- The freshly forked child printed `msg` on stderr and exited with
  `code` after `execve` returned (main.rs lines 86-87). -/
  | childFatal (msg : String) (code : Nat)
  /-- The freshly forked child panicked indexing `cmd[0]` of an empty
  argument vector (main.rs line 52). -/
  | childPanicked
  /-- `execve` succeeded in the child: its image is replaced and no further
  tracer code runs in it. -/
  | childImageReplaced
deriving DecidableEq

/-- The launch-mode `else` block of main.rs (lines 36-97), as seen by one
process: `fork_ret` is the value `sys_fork` returned in this process
(`0` in the child, negative on failure, the child's pid in the parent), and
`execve_fails` says whether the child's `sys_execve` came back. The child's
`sys_ptrace(0, ...)` TRACEME result is discarded by the source (`_ =`). -/
def launchMode (cmd : List String) (fork_ret : Int) (execve_fails : Bool) : SetupResult :=
  if fork_ret = 0 then
    match cmd.head? with
    | none => SetupResult.childPanicked
    | some _ =>
        if execve_fails then
          SetupResult.childFatal ("failed to exec the requested invocation") 1
        else
          SetupResult.childImageReplaced
  else if fork_ret < 0 then
    SetupResult.tracerFatal ("failed to fork a new subprocess") 1
  else
    SetupResult.traced fork_ret.toNat

/-- The setup phase of main.rs: `cmd` are the command-line arguments after
the program name. `cmd.len() == 2 && cmd[0] == "-p"` selects attach mode,
where the parsed pid becomes `tracee_pid` and the result of
`sys_ptrace(16, tracee_pid, 0, 0)` (PTRACE_ATTACH) — `attach_ret` — is
discarded by the source (`_ =`, main.rs line 35); everything else is launch
mode. -/
def setupStep (cmd : List String) (attach_ret fork_ret : Int)
    (execve_fails : Bool) : SetupResult :=
  match cmd with
  | [flagArg, pidArg] =>
    if flagArg = "-p" then
      match parseU64 pidArg with
      | some pid => SetupResult.traced pid
      | none => SetupResult.tracerPanicked
    else
      launchMode [flagArg, pidArg] fork_ret execve_fails
  | _ => launchMode cmd fork_ret execve_fails

/-- Overall outcome of one run of `main` in the process that invoked it. -/
inductive ProgramOutcome where
  /-- Setup produced a tracee: the tracer performs the initial blocking wait
  and runs the trace loop. -/
  | traceRun (tracee_pid : Nat) (result : TraceResult)
  /-- Setup ended this process (fatal error, panic, or the child image was
  replaced) before the trace loop. -/
  | startupHalt (r : SetupResult)
deriving DecidableEq

/-- `main` of main.rs: run setup; when it yields a tracee, perform the
initial `sys_wait4` — whose status, `initial_wait_status`, is overwritten
inside the loop before ever being read, hence ignored here — and run the
trace loop with `is_sys_exit` starting `false`. -/
def mainModel (syscall_table : Nat → Option String) (cmd : List String)
    (attach_ret fork_ret : Int) (execve_fails : Bool)
    (initial_wait_status : Int) (obss : List WaitObservation) : ProgramOutcome :=
  match setupStep cmd attach_ret fork_ret execve_fails with
  | SetupResult.traced p => ProgramOutcome.traceRun p (runTrace syscall_table p obss)
  | r => ProgramOutcome.startupHalt r

/-- Convenience constructor for register files in concrete witnesses: all
fields zero except the syscall id, the first three argument registers and
the result register. -/
def mkRegs (id a1 a2 a3 res : Nat) : UserRegsStruct :=
  { r15 := 0, r14 := 0, r13 := 0, r12 := 0, rbp := 0, rbx := 0, r11 := 0,
    r10 := 0, r9 := 0, r8 := 0, rax := res, rcx := 0, rdx := a3, rsi := a2,
    rdi := a1, orig_rax := id, rip := 0, cs := 0, eflags := 0, rsp := 0,
    ss := 0, fs_base := 0, gs_base := 0, ds := 0, es := 0, fs := 0, gs := 0 }

/-- A small concrete syscall table for concrete evaluations, with the ids of
`read` and `write` as in the bundled x86_64 table. -/
def wTable : Nat → Option String := fun n =>
  if n = 0 then some ("read") else if n = 1 then some ("write") else none

/-- Four concrete syscall-boundary stops (status `0x57f` is a SIGTRAP stop:
its low seven bits are `0x7f`, nonzero). -/
def wObss : List WaitObservation :=
  [⟨0x57f, mkRegs 0 3 140000 512 512⟩, ⟨0x57f, mkRegs 0 3 140000 512 512⟩,
   ⟨0x57f, mkRegs 1 1 150000 5 5⟩, ⟨0x57f, mkRegs 1 1 150000 5 5⟩]

/-! ### Helper lemmas about the trace loop -/

theorem decide_succ_mod_two (n : Nat) :
    decide ((n + 1) % 2 = 1) = !decide (n % 2 = 1) := by
  rcases Nat.mod_two_eq_zero_or_one n with h | h <;> simp [Nat.add_mod, h]

theorem traceStep_entry (syscall_table : Nat → Option String) (tracee_pid : Nat)
    (o : WaitObservation) (h : ¬Int.land o.status 0x7f = 0) :
    traceStep syscall_table tracee_pid false o = StepResult.continued none true := by
  simp [traceStep, h]

theorem traceStep_exitStop (syscall_table : Nat → Option String) (tracee_pid : Nat)
    (o : WaitObservation) (name : String) (h : ¬Int.land o.status 0x7f = 0)
    (hname : syscall_table o.regs.orig_rax = some name) :
    traceStep syscall_table tracee_pid true o =
      StepResult.continued (some (syscallReportLine tracee_pid name o.regs)) false := by
  simp [traceStep, h, hname]

/-- Behaviour of the loop on a stretch of syscall-boundary stops whose
identifiers all resolve, simultaneously for both toggle values: the final
toggle records one flip per iteration, and the reported lines are exactly
those of the observations at reporting positions. -/
theorem traceLoop_no_exit (syscall_table : Nat → Option String) (tracee_pid : Nat)
    (obss : List WaitObservation)
    (h1 : ∀ o ∈ obss, ¬Int.land o.status 0x7f = 0)
    (h2 : ∀ o ∈ obss, (syscall_table o.regs.orig_rax).isSome) :
    ((traceLoop syscall_table tracee_pid false obss).final =
        LoopEnd.ranOut (decide (obss.length % 2 = 1)) ∧
      (traceLoop syscall_table tracee_pid false obss).lines.length = obss.length / 2 ∧
      ∀ j : Nat, (traceLoop syscall_table tracee_pid false obss).lines[j]? =
        (obss[2 * j + 1]?).bind (reportOf syscall_table tracee_pid)) ∧
    ((traceLoop syscall_table tracee_pid true obss).final =
        LoopEnd.ranOut (!decide (obss.length % 2 = 1)) ∧
      (traceLoop syscall_table tracee_pid true obss).lines.length = (obss.length + 1) / 2 ∧
      ∀ j : Nat, (traceLoop syscall_table tracee_pid true obss).lines[j]? =
        (obss[2 * j]?).bind (reportOf syscall_table tracee_pid)) := by
  induction obss with
  | nil =>
    refine ⟨⟨rfl, rfl, ?_⟩, ⟨rfl, rfl, ?_⟩⟩ <;> intro j <;> simp [traceLoop]
  | cons o rest ih =>
    have ho1 : ¬Int.land o.status 0x7f = 0 := h1 o (List.mem_cons_self o rest)
    have ho2 : (syscall_table o.regs.orig_rax).isSome := h2 o (List.mem_cons_self o rest)
    obtain ⟨name, hname⟩ := Option.isSome_iff_exists.mp ho2
    obtain ⟨⟨ihf1, ihf2, ihf3⟩, iht1, iht2, iht3⟩ :=
      ih (fun x hx => h1 x (List.mem_cons_of_mem o hx))
        (fun x hx => h2 x (List.mem_cons_of_mem o hx))
    constructor
    · have hstep := traceStep_entry syscall_table tracee_pid o ho1
      refine ⟨?_, ?_, ?_⟩
      · simp only [traceLoop, hstep, Option.toList, List.nil_append]
        rw [iht1, List.length_cons, decide_succ_mod_two]
      · simp only [traceLoop, hstep, Option.toList, List.nil_append]
        rw [iht2, List.length_cons]
      · intro j
        simp only [traceLoop, hstep, Option.toList, List.nil_append]
        rw [List.getElem?_cons_succ, iht3 j]
    · have hstep := traceStep_exitStop syscall_table tracee_pid o name ho1 hname
      refine ⟨?_, ?_, ?_⟩
      · simp only [traceLoop, hstep, Option.toList, List.cons_append, List.nil_append]
        rw [ihf1, List.length_cons, decide_succ_mod_two, Bool.not_not]
      · simp only [traceLoop, hstep, Option.toList, List.cons_append, List.nil_append,
          List.length_cons]
        rw [ihf2]
        omega
      · intro j
        cases j with
        | zero =>
          simp only [traceLoop, hstep, Option.toList, List.cons_append, List.nil_append,
            Nat.mul_zero, List.getElem?_cons_zero, Option.some_bind]
          simp [reportOf, hname]
        | succ j =>
          simp only [traceLoop, hstep, Option.toList, List.cons_append, List.nil_append]
          have hidx : 2 * (j + 1) = 2 * j + 1 + 1 := by ring
          rw [List.getElem?_cons_succ, hidx, List.getElem?_cons_succ, ihf3 j]

/-- Splitting a run of the loop: if a prefix of the observations leaves the
loop still going with toggle value `g`, the whole run is the prefix's lines
followed by the run on the remainder started at `g`. -/
theorem traceLoop_append (syscall_table : Nat → Option String) (tracee_pid : Nat)
    (pre : List WaitObservation) :
    ∀ (flag g : Bool) (rest : List WaitObservation),
      (traceLoop syscall_table tracee_pid flag pre).final = LoopEnd.ranOut g →
      traceLoop syscall_table tracee_pid flag (pre ++ rest) =
        ⟨(traceLoop syscall_table tracee_pid flag pre).lines ++
            (traceLoop syscall_table tracee_pid g rest).lines,
          (traceLoop syscall_table tracee_pid g rest).final⟩ := by
  induction pre with
  | nil =>
    intro flag g rest h
    have hg : flag = g := by simpa [traceLoop] using h
    subst hg
    rfl
  | cons o pre ih =>
    intro flag g rest h
    cases hstep : traceStep syscall_table tracee_pid flag o with
    | exited line => simp [traceLoop, hstep] at h
    | panicked i => simp [traceLoop, hstep] at h
    | continued em flag' =>
      have h' : (traceLoop syscall_table tracee_pid flag' pre).final = LoopEnd.ranOut g := by
        simpa [traceLoop, hstep] using h
      simp only [List.cons_append, traceLoop, hstep, List.append_eq]
      rw [ih flag' g rest h']
      simp [List.append_assoc]

theorem syscallReportLine_head (tracee_pid : Nat) (name : String)
    (regs : UserRegsStruct) :
    (syscallReportLine tracee_pid name regs).data.head? = some '[' := by
  have hb : ("[" : String).data = ['['] := rfl
  simp [syscallReportLine, String.data_append, hb]

theorem exitReportLine_head (status : Int) :
    (exitReportLine status).data.head? = some 'c' := by
  have hb : ("child exited with status: " : String).data.head? = some 'c' := rfl
  simp only [exitReportLine, String.data_append, List.head?_append, hb,
    Option.or_some]

/-- A syscall report line never coincides with an exit notice: the former
starts with `[`, the latter with `c`. -/
theorem syscallReportLine_ne_exitReportLine (tracee_pid : Nat) (name : String)
    (regs : UserRegsStruct) (status : Int) :
    syscallReportLine tracee_pid name regs ≠ exitReportLine status := by
  intro h
  have h2 := congrArg (fun t => t.data.head?) h
  rw [show (fun t : String => t.data.head?) (syscallReportLine tracee_pid name regs) =
      (syscallReportLine tracee_pid name regs).data.head? from rfl] at h2
  rw [show (fun t : String => t.data.head?) (exitReportLine status) =
      (exitReportLine status).data.head? from rfl] at h2
  rw [syscallReportLine_head, exitReportLine_head] at h2
  simp at h2

/-! ### Claim theorems -/

/-- C1: starting from the first syscall-boundary stop after the initial wait,
the `is_sys_exit` flag starts `false` (entry); on a run of syscall-boundary
stops whose identifiers resolve, the loop's final flag shows one flip per
iteration, `⌊n/2⌋` reports are emitted, and the `j`-th report is exactly the
report of the stop at position `2j+1` (the 2nd, 4th, 6th, ... stops); entry
stops emit nothing. -/
theorem c1_alternating_reports (syscall_table : Nat → Option String)
    (tracee_pid : Nat) (obss : List WaitObservation)
    (h1 : ∀ o ∈ obss, ¬Int.land o.status 0x7f = 0)
    (h2 : ∀ o ∈ obss, (syscall_table o.regs.orig_rax).isSome) :
    (runTrace syscall_table tracee_pid obss).final =
        LoopEnd.ranOut (decide (obss.length % 2 = 1)) ∧
    (runTrace syscall_table tracee_pid obss).lines.length = obss.length / 2 ∧
    ∀ j : Nat, (runTrace syscall_table tracee_pid obss).lines[j]? =
      (obss[2 * j + 1]?).bind (reportOf syscall_table tracee_pid) :=
  (traceLoop_no_exit syscall_table tracee_pid obss h1 h2).1

/-- C1 witness: the theorem instantiated at a concrete four-stop trace. -/
theorem c1_alternating_reports_witness :
    (∀ o ∈ wObss, ¬Int.land o.status 0x7f = 0) ∧
    (∀ o ∈ wObss, (wTable o.regs.orig_rax).isSome) ∧
    ((runTrace wTable 51942 wObss).final =
        LoopEnd.ranOut (decide (wObss.length % 2 = 1)) ∧
      (runTrace wTable 51942 wObss).lines.length = wObss.length / 2 ∧
      ∀ j : Nat, (runTrace wTable 51942 wObss).lines[j]? =
        (wObss[2 * j + 1]?).bind (reportOf wTable 51942)) :=
  ⟨by decide, by decide,
    c1_alternating_reports wTable 51942 wObss (by decide) (by decide)⟩

/-- C4: a wait status whose low seven bits are zero (normal termination)
makes the loop print exactly one exit-status line — carrying
`(status >> 8) & 0xff` in decimal — and break; observations after it are
never consumed, so no syscall line follows the exit line. -/
theorem c4_exit_report_terminates (syscall_table : Nat → Option String)
    (tracee_pid : Nat) (pre : List WaitObservation) (e : WaitObservation)
    (post : List WaitObservation)
    (h1 : ∀ o ∈ pre, ¬Int.land o.status 0x7f = 0)
    (h2 : ∀ o ∈ pre, (syscall_table o.regs.orig_rax).isSome)
    (he : Int.land e.status 0x7f = 0) :
    runTrace syscall_table tracee_pid (pre ++ e :: post) =
      ⟨(runTrace syscall_table tracee_pid pre).lines ++ [exitReportLine e.status],
        LoopEnd.exited⟩ ∧
    (runTrace syscall_table tracee_pid (pre ++ e :: post)).lines.count
        (exitReportLine e.status) = 1 ∧
    exitReportLine e.status =
      "child exited with status: " ++ toString (Int.land (e.status >>> (8 : Int)) 0xff) := by
  obtain ⟨hf, hlen, hidx⟩ := (traceLoop_no_exit syscall_table tracee_pid pre h1 h2).1
  have hidx' : ∀ j : Nat, (runTrace syscall_table tracee_pid pre).lines[j]? =
      (pre[2 * j + 1]?).bind (reportOf syscall_table tracee_pid) := hidx
  have hstep : traceStep syscall_table tracee_pid (decide (pre.length % 2 = 1)) e =
      StepResult.exited (exitReportLine e.status) := by
    simp [traceStep, he]
  have hrest : traceLoop syscall_table tracee_pid (decide (pre.length % 2 = 1))
      (e :: post) = ⟨[exitReportLine e.status], LoopEnd.exited⟩ := by
    simp [traceLoop, hstep]
  have hmain : runTrace syscall_table tracee_pid (pre ++ e :: post) =
      ⟨(runTrace syscall_table tracee_pid pre).lines ++ [exitReportLine e.status],
        LoopEnd.exited⟩ := by
    show traceLoop syscall_table tracee_pid false (pre ++ e :: post) = _
    rw [traceLoop_append syscall_table tracee_pid pre false _ (e :: post) hf, hrest]
    rfl
  refine ⟨hmain, ?_, rfl⟩
  rw [hmain]
  have h0 : (runTrace syscall_table tracee_pid pre).lines.count
      (exitReportLine e.status) = 0 := by
    rw [List.count_eq_zero]
    intro hmem
    obtain ⟨j, hj⟩ := List.mem_iff_getElem?.mp hmem
    rw [hidx' j] at hj
    cases hpo : pre[2 * j + 1]? with
    | none => rw [hpo] at hj; simp at hj
    | some o =>
      rw [hpo] at hj
      cases hto : syscall_table o.regs.orig_rax with
      | none => simp [reportOf, hto] at hj
      | some name =>
        simp only [Option.some_bind, reportOf, hto, Option.map_some'] at hj
        exact syscallReportLine_ne_exitReportLine tracee_pid name o.regs e.status
          (Option.some.inj hj)
  show ((runTrace syscall_table tracee_pid pre).lines ++
      [exitReportLine e.status]).count (exitReportLine e.status) = 1
  rw [List.count_append, h0]
  simp

/-- C4 witness: two entry/exit stops, then a normal-termination status `0x400`
(exit code 4); a further stop after it is ignored. -/
theorem c4_exit_report_terminates_witness :
    (∀ o ∈ wObss, ¬Int.land o.status 0x7f = 0) ∧
    (∀ o ∈ wObss, (wTable o.regs.orig_rax).isSome) ∧
    Int.land (1024 : Int) 0x7f = 0 ∧
    (runTrace wTable 51942 (wObss ++ ⟨1024, mkRegs 0 0 0 0 0⟩ ::
        [⟨0x57f, mkRegs 1 1 2 3 3⟩]) =
      ⟨(runTrace wTable 51942 wObss).lines ++ [exitReportLine 1024],
        LoopEnd.exited⟩ ∧
      (runTrace wTable 51942 (wObss ++ ⟨1024, mkRegs 0 0 0 0 0⟩ ::
          [⟨0x57f, mkRegs 1 1 2 3 3⟩])).lines.count (exitReportLine 1024) = 1 ∧
      exitReportLine 1024 =
        "child exited with status: " ++ toString (Int.land ((1024 : Int) >>> (8 : Int)) 0xff)) :=
  ⟨by decide, by decide, by decide,
    c4_exit_report_terminates wTable 51942 wObss ⟨1024, mkRegs 0 0 0 0 0⟩
      [⟨0x57f, mkRegs 1 1 2 3 3⟩] (by decide) (by decide) (by decide)⟩

/-- C2: when the stop being reported carries a syscall identifier absent from
the table, the `syscall_table[&regs.orig_rax]` indexing panics: the run ends
in `aborted`, no placeholder line is printed for that stop, and no later
observation is processed. -/
theorem c2_catalog_miss_aborts (syscall_table : Nat → Option String)
    (tracee_pid : Nat) (pre : List WaitObservation) (o : WaitObservation)
    (post : List WaitObservation)
    (h1 : ∀ x ∈ pre, ¬Int.land x.status 0x7f = 0)
    (h2 : ∀ x ∈ pre, (syscall_table x.regs.orig_rax).isSome)
    (hodd : pre.length % 2 = 1)
    (hstop : ¬Int.land o.status 0x7f = 0)
    (hmiss : syscall_table o.regs.orig_rax = none) :
    runTrace syscall_table tracee_pid (pre ++ o :: post) =
      ⟨(runTrace syscall_table tracee_pid pre).lines,
        LoopEnd.aborted o.regs.orig_rax⟩ := by
  obtain ⟨hf, _, _⟩ := (traceLoop_no_exit syscall_table tracee_pid pre h1 h2).1
  have hstep : traceStep syscall_table tracee_pid true o =
      StepResult.panicked o.regs.orig_rax := by
    simp [traceStep, hstop, hmiss]
  have hrest : traceLoop syscall_table tracee_pid true (o :: post) =
      ⟨[], LoopEnd.aborted o.regs.orig_rax⟩ := by
    simp [traceLoop, hstep]
  have hflag : decide (pre.length % 2 = 1) = true := by simp [hodd]
  show traceLoop syscall_table tracee_pid false (pre ++ o :: post) = _
  rw [traceLoop_append syscall_table tracee_pid pre false _ (o :: post) hf, hflag, hrest]
  simp only [List.append_nil]
  rfl

/-- C2 witness: after one entry stop, an exit stop whose identifier `999` is
not in the table aborts the run; a later observation is ignored. -/
theorem c2_catalog_miss_aborts_witness :
    (∀ x ∈ [(⟨0x57f, mkRegs 0 3 140000 512 512⟩ : WaitObservation)],
      ¬Int.land x.status 0x7f = 0) ∧
    wTable 999 = none ∧
    (runTrace wTable 51942 ([⟨0x57f, mkRegs 0 3 140000 512 512⟩] ++
        ⟨0x57f, mkRegs 999 1 2 3 3⟩ :: [⟨0x57f, mkRegs 1 1 2 3 3⟩]) =
      ⟨(runTrace wTable 51942 [⟨0x57f, mkRegs 0 3 140000 512 512⟩]).lines,
        LoopEnd.aborted 999⟩) :=
  ⟨by decide, by decide,
    c2_catalog_miss_aborts wTable 51942 [⟨0x57f, mkRegs 0 3 140000 512 512⟩]
      ⟨0x57f, mkRegs 999 1 2 3 3⟩ [⟨0x57f, mkRegs 1 1 2 3 3⟩]
      (by decide) (by decide) (by decide) (by decide) (by decide)⟩

/-- C10: the loop's `break` happens exactly on a wait status whose low seven
bits are all zero, reporting `(status >> 8) & 0xff`; any status with nonzero
low seven bits — a syscall stop, a signal-delivery stop, or a
killed-by-signal status alike — is handled by the stop branch, which (when
the identifier resolves at a reporting stop) completes the iteration and
flips the flag. -/
theorem c10_loop_termination_test (syscall_table : Nat → Option String)
    (tracee_pid : Nat) (flag : Bool) (o : WaitObservation) :
    (Int.land o.status 0x7f = 0 →
      traceStep syscall_table tracee_pid flag o =
        StepResult.exited ("child exited with status: " ++
          toString (Int.land (o.status >>> (8 : Int)) 0xff))) ∧
    (∀ line : String,
      traceStep syscall_table tracee_pid flag o = StepResult.exited line →
      Int.land o.status 0x7f = 0) ∧
    (¬Int.land o.status 0x7f = 0 → (syscall_table o.regs.orig_rax).isSome →
      traceStep syscall_table tracee_pid flag o =
        StepResult.continued
          (if flag then reportOf syscall_table tracee_pid o else none) (!flag)) := by
  refine ⟨?_, ?_, ?_⟩
  · intro h
    simp [traceStep, h, exitReportLine]
  · intro line hline
    by_contra hc
    rw [traceStep, if_neg hc] at hline
    cases flag with
    | false => simp at hline
    | true =>
      cases hto : syscall_table o.regs.orig_rax with
      | none => simp [hto] at hline
      | some name => simp [hto] at hline
  · intro hc hsome
    obtain ⟨name, hname⟩ := Option.isSome_iff_exists.mp hsome
    cases flag with
    | false => simp [traceStep, hc, reportOf, hname]
    | true => simp [traceStep, hc, reportOf, hname]

/-- C10 witness: status `9` (tracee killed by SIGKILL) and status `0x27f`
(SIGINT delivery stop) are both handled as boundary stops and flip the flag;
status `0x100` is the only kind that exits, with code `1`. -/
theorem c10_loop_termination_test_witness :
    (Int.land (256 : Int) 0x7f = 0 ∧
      traceStep wTable 7 false ⟨256, mkRegs 1 1 2 3 3⟩ =
        StepResult.exited ("child exited with status: " ++
          toString (Int.land ((256 : Int) >>> (8 : Int)) 0xff))) ∧
    (¬Int.land (9 : Int) 0x7f = 0 ∧ (wTable (mkRegs 1 1 2 3 3).orig_rax).isSome ∧
      traceStep wTable 7 true ⟨9, mkRegs 1 1 2 3 3⟩ =
        StepResult.continued
          (if true then reportOf wTable 7 ⟨9, mkRegs 1 1 2 3 3⟩ else none) (!true)) ∧
    (¬Int.land (0x27f : Int) 0x7f = 0 ∧
      traceStep wTable 7 false ⟨0x27f, mkRegs 1 1 2 3 3⟩ =
        StepResult.continued
          (if false then reportOf wTable 7 ⟨0x27f, mkRegs 1 1 2 3 3⟩ else none) (!false)) :=
  ⟨⟨by decide, (c10_loop_termination_test wTable 7 false ⟨256, mkRegs 1 1 2 3 3⟩).1
      (by decide)⟩,
    ⟨by decide, by decide,
      (c10_loop_termination_test wTable 7 true ⟨9, mkRegs 1 1 2 3 3⟩).2.2
        (by decide) (by decide)⟩,
    ⟨by decide,
      (c10_loop_termination_test wTable 7 false ⟨0x27f, mkRegs 1 1 2 3 3⟩).2.2
        (by decide) (by decide)⟩⟩

/-- C5: a reported stop produces exactly the line
`[pid] name(arg0, arg1, arg2, ...) = result` — tracee pid in decimal, the
resolved name, the first three argument registers and the result register in
lowercase hexadecimal — and a terminating status produces exactly
`child exited with status: <code>` with the code in decimal. -/
theorem c5_report_line_shape (syscall_table : Nat → Option String)
    (tracee_pid : Nat) (name : String) (r : UserRegsStruct) (s : Int)
    (flag : Bool) :
    (¬Int.land s 0x7f = 0 → syscall_table r.orig_rax = some name →
      traceStep syscall_table tracee_pid true ⟨s, r⟩ =
        StepResult.continued
          (some ("[" ++ toString tracee_pid ++ "] " ++ name ++ "(" ++
            rustHex r.rdi ++ ", " ++ rustHex r.rsi ++ ", " ++ rustHex r.rdx ++
            ", ...) = " ++ rustHex r.rax))
          false) ∧
    (Int.land s 0x7f = 0 →
      traceStep syscall_table tracee_pid flag ⟨s, r⟩ =
        StepResult.exited ("child exited with status: " ++
          toString (Int.land (s >>> (8 : Int)) 0xff))) := by
  constructor
  · intro hs hname
    simp [traceStep, hs, hname, syscallReportLine]
  · intro hs
    simp [traceStep, hs, exitReportLine]

/-- C5 witness: a concrete `write(1, 0x249f0, 7) = 7` stop of pid 51942 and a
concrete exit status `0x300` (code 3). -/
theorem c5_report_line_shape_witness :
    (¬Int.land (0x57f : Int) 0x7f = 0 ∧ wTable 1 = some ("write") ∧
      traceStep wTable 51942 true ⟨0x57f, mkRegs 1 1 0x249f0 7 7⟩ =
        StepResult.continued
          (some ("[" ++ toString 51942 ++ "] " ++ "write" ++ "(" ++
            rustHex 1 ++ ", " ++ rustHex 0x249f0 ++ ", " ++ rustHex 7 ++
            ", ...) = " ++ rustHex 7))
          false) ∧
    (Int.land (768 : Int) 0x7f = 0 ∧
      traceStep wTable 51942 false ⟨768, mkRegs 1 1 2 3 3⟩ =
        StepResult.exited ("child exited with status: " ++
          toString (Int.land ((768 : Int) >>> (8 : Int)) 0xff))) :=
  ⟨⟨by decide, by decide,
      (c5_report_line_shape wTable 51942 ("write") (mkRegs 1 1 0x249f0 7 7)
        0x57f false).1 (by decide) (by decide)⟩,
    ⟨by decide,
      (c5_report_line_shape wTable 51942 ("write") (mkRegs 1 1 2 3 3)
        768 false).2 (by decide)⟩⟩

/-- C6: the register snapshot is a record of raw 64-bit values in which the
syscall identifier is `orig_rax`, the first four argument slots are
`rdi`, `rsi`, `rdx`, `r10` in calling-convention order, and the result is
`rax`; a reporting step reads nothing outside `orig_rax`, `rdi`, `rsi`,
`rdx`, `rax` — two snapshots agreeing there behave identically. -/
theorem c6_register_snapshot_roles :
    (∀ (syscall_table : Nat → Option String) (tracee_pid : Nat) (s : Int)
        (r r' : UserRegsStruct),
      r.orig_rax = r'.orig_rax → r.rdi = r'.rdi → r.rsi = r'.rsi →
      r.rdx = r'.rdx → r.rax = r'.rax →
      traceStep syscall_table tracee_pid true ⟨s, r⟩ =
        traceStep syscall_table tracee_pid true ⟨s, r'⟩) ∧
    (∀ r : UserRegsStruct,
      r.syscallId = r.orig_rax ∧ r.firstArg = r.rdi ∧ r.secondArg = r.rsi ∧
      r.thirdArg = r.rdx ∧ r.fourthArg = r.r10 ∧ r.result = r.rax) := by
  constructor
  · intro syscall_table tracee_pid s r r' hid h1 h2 h3 h4
    by_cases hs : Int.land s 0x7f = 0
    · simp [traceStep, hs]
    · cases hto : syscall_table r'.orig_rax with
      | none => simp [traceStep, hs, hid, hto]
      | some name => simp [traceStep, hs, hid, hto, syscallReportLine, h1, h2, h3, h4]
  · intro r
    exact ⟨rfl, rfl, rfl, rfl, rfl, rfl⟩

/-- C6 witness: two snapshots that differ in every register except the five
consulted ones produce the same step; the accessor identities at a concrete
snapshot. -/
theorem c6_register_snapshot_roles_witness :
    ((mkRegs 1 1 2 3 3).orig_rax = (⟨9, 9, 9, 9, 9, 9, 9, 9, 9, 9, 3, 9, 3, 2,
        1, 1, 9, 9, 9, 9, 9, 9, 9, 9, 9, 9, 9⟩ : UserRegsStruct).orig_rax ∧
      traceStep wTable 7 true ⟨0x57f, mkRegs 1 1 2 3 3⟩ =
        traceStep wTable 7 true ⟨0x57f, ⟨9, 9, 9, 9, 9, 9, 9, 9, 9, 9, 3, 9, 3,
          2, 1, 1, 9, 9, 9, 9, 9, 9, 9, 9, 9, 9, 9⟩⟩) ∧
    ((mkRegs 1 1 2 3 3).syscallId = (mkRegs 1 1 2 3 3).orig_rax ∧
      (mkRegs 1 1 2 3 3).firstArg = (mkRegs 1 1 2 3 3).rdi ∧
      (mkRegs 1 1 2 3 3).secondArg = (mkRegs 1 1 2 3 3).rsi ∧
      (mkRegs 1 1 2 3 3).thirdArg = (mkRegs 1 1 2 3 3).rdx ∧
      (mkRegs 1 1 2 3 3).fourthArg = (mkRegs 1 1 2 3 3).r10 ∧
      (mkRegs 1 1 2 3 3).result = (mkRegs 1 1 2 3 3).rax) :=
  ⟨⟨by decide,
      c6_register_snapshot_roles.1 wTable 7 0x57f (mkRegs 1 1 2 3 3) _
        (by decide) (by decide) (by decide) (by decide) (by decide)⟩,
    c6_register_snapshot_roles.2 (mkRegs 1 1 2 3 3)⟩

/-- C9: the reported line is a pure function of the stop event's content —
two reporting stops with the same tracee pid, resolved name, argument
registers and result register yield byte-identical lines, whatever the
table, wait status or remaining registers; and a line is always produced. -/
theorem c9_reporting_deterministic (t t' : Nat → Option String)
    (tracee_pid : Nat) (o o' : WaitObservation) (name : String)
    (hn : t o.regs.orig_rax = some name) (hn' : t' o'.regs.orig_rax = some name)
    (h1 : o.regs.rdi = o'.regs.rdi) (h2 : o.regs.rsi = o'.regs.rsi)
    (h3 : o.regs.rdx = o'.regs.rdx) (h4 : o.regs.rax = o'.regs.rax)
    (hs : ¬Int.land o.status 0x7f = 0) (hs' : ¬Int.land o'.status 0x7f = 0) :
    (traceStep t tracee_pid true o).emitted =
      (traceStep t' tracee_pid true o').emitted ∧
    ((traceStep t tracee_pid true o).emitted).isSome := by
  constructor
  · rw [traceStep_exitStop t tracee_pid o name hs hn,
      traceStep_exitStop t' tracee_pid o' name hs' hn']
    simp [StepResult.emitted, syscallReportLine, h1, h2, h3, h4]
  · rw [traceStep_exitStop t tracee_pid o name hs hn]
    simp [StepResult.emitted]

/-- C9 witness: the same `write` event observed under two different wait
statuses and unrelated-register contents formats to the same bytes. -/
theorem c9_reporting_deterministic_witness :
    (wTable (mkRegs 1 1 2 3 3).orig_rax = some ("write") ∧
      ¬Int.land (0x57f : Int) 0x7f = 0 ∧ ¬Int.land (9 : Int) 0x7f = 0) ∧
    (traceStep wTable 51942 true ⟨0x57f, mkRegs 1 1 2 3 3⟩).emitted =
      (traceStep wTable 51942 true ⟨9, ⟨4, 4, 4, 4, 4, 4, 4, 4, 4, 4, 3, 4, 3,
        2, 1, 1, 4, 4, 4, 4, 4, 4, 4, 4, 4, 4, 4⟩⟩).emitted ∧
    ((traceStep wTable 51942 true ⟨0x57f, mkRegs 1 1 2 3 3⟩).emitted).isSome :=
  ⟨⟨by decide, by decide, by decide⟩,
    (c9_reporting_deterministic wTable wTable 51942 ⟨0x57f, mkRegs 1 1 2 3 3⟩
        ⟨9, ⟨4, 4, 4, 4, 4, 4, 4, 4, 4, 4, 3, 4, 3, 2, 1, 1, 4, 4, 4, 4, 4, 4,
          4, 4, 4, 4, 4⟩⟩ ("write") (by decide) (by decide) (by decide)
        (by decide) (by decide) (by decide) (by decide) (by decide)).1,
    (c9_reporting_deterministic wTable wTable 51942 ⟨0x57f, mkRegs 1 1 2 3 3⟩
        ⟨9, ⟨4, 4, 4, 4, 4, 4, 4, 4, 4, 4, 3, 4, 3, 2, 1, 1, 4, 4, 4, 4, 4, 4,
          4, 4, 4, 4, 4⟩⟩ ("write") (by decide) (by decide) (by decide)
        (by decide) (by decide) (by decide) (by decide) (by decide)).2⟩

/-- C3: in attach mode the parsed identifier becomes the tracee identifier
unconditionally and the program reaches the initial wait and the trace loop;
the outcome is independent of the PTRACE_ATTACH return value (discarded), of
the launch-path parameters (never consulted), and of the initial wait status
(overwritten before being read) — no existence or permission check happens. -/
theorem c3_attach_unchecked (syscall_table : Nat → Option String) (s : String)
    (pid : Nat) (attach_ret attach_ret' fork_ret fork_ret' : Int)
    (ef ef' : Bool) (iw iw' : Int) (obss : List WaitObservation)
    (hp : parseU64 s = some pid) :
    mainModel syscall_table ["-p", s] attach_ret fork_ret ef iw obss =
      ProgramOutcome.traceRun pid (runTrace syscall_table pid obss) ∧
    mainModel syscall_table ["-p", s] attach_ret fork_ret ef iw obss =
      mainModel syscall_table ["-p", s] attach_ret' fork_ret' ef' iw' obss := by
  have h : ∀ (a f : Int) (e : Bool),
      setupStep ["-p", s] a f e = SetupResult.traced pid := by
    intro a f e
    simp [setupStep, hp]
  constructor
  · simp [mainModel, h attach_ret fork_ret ef]
  · simp [mainModel, h attach_ret fork_ret ef, h attach_ret' fork_ret' ef']

/-- C3 witness: `-p 4242` with an attach that failed (return `-1`) versus one
that succeeded (return `0`): the program proceeds identically to tracing
pid 4242. -/
theorem c3_attach_unchecked_witness :
    parseU64 ("4242") = some 4242 ∧
    (mainModel wTable ["-p", "4242"] (-1) 0 false 0x57f wObss =
      ProgramOutcome.traceRun 4242 (runTrace wTable 4242 wObss) ∧
    mainModel wTable ["-p", "4242"] (-1) 0 false 0x57f wObss =
      mainModel wTable ["-p", "4242"] 0 5 true 0 wObss) :=
  ⟨by decide,
    c3_attach_unchecked wTable ("4242") 4242 (-1) 0 0 5 false true 0x57f 0 wObss
      (by decide)⟩

/-- C7: in launch mode, a negative `fork` return is fatal to the tracer —
diagnostic plus exit code 1; a returning `execve` is fatal only to the child,
which prints a diagnostic and exits 1 (nonzero), while a parent seeing a
positive `fork` return proceeds to trace that pid regardless. -/
theorem c7_launch_failure_modes (cmd : List String) (attach_ret : Int)
    (ef : Bool) (hm : cmd.head? ≠ some ("-p")) :
    (∀ fork_ret : Int, fork_ret < 0 →
      setupStep cmd attach_ret fork_ret ef =
        SetupResult.tracerFatal ("failed to fork a new subprocess") 1) ∧
    (cmd ≠ [] →
      setupStep cmd attach_ret 0 true =
        SetupResult.childFatal ("failed to exec the requested invocation") 1) ∧
    (∀ fork_ret : Int, 0 < fork_ret →
      setupStep cmd attach_ret fork_ret ef = SetupResult.traced fork_ret.toNat) := by
  have hstep : ∀ (f : Int) (e : Bool),
      setupStep cmd attach_ret f e = launchMode cmd f e := by
    intro f e
    match cmd with
    | [] => rfl
    | [a] => rfl
    | [a, b] =>
      have ha : a ≠ "-p" := by
        intro hab
        exact hm (by simp [hab])
      simp [setupStep, ha]
    | a :: b :: c :: t => rfl
  refine ⟨?_, ?_, ?_⟩
  · intro fork_ret hneg
    rw [hstep, launchMode, if_neg (by omega : ¬fork_ret = 0), if_pos hneg]
  · intro hne
    match cmd with
    | [] => exact absurd rfl hne
    | a :: t =>
      rw [hstep, launchMode, if_pos rfl]
      simp
  · intro fork_ret hpos
    rw [hstep, launchMode, if_neg (by omega : ¬fork_ret = 0),
      if_neg (by omega : ¬fork_ret < 0)]

/-- C7 witness: launching `ls -al`; fork failure (`-1`), the child path with
a returning execve, and the parent path with child pid 51942. -/
theorem c7_launch_failure_modes_witness :
    (["ls", "-al"].head? ≠ some ("-p")) ∧
    ((-1 : Int) < 0 ∧
      setupStep ["ls", "-al"] 0 (-1) false =
        SetupResult.tracerFatal ("failed to fork a new subprocess") 1) ∧
    (setupStep ["ls", "-al"] 0 0 true =
      SetupResult.childFatal ("failed to exec the requested invocation") 1) ∧
    ((0 : Int) < 51942 ∧
      setupStep ["ls", "-al"] 0 51942 false = SetupResult.traced (51942 : Int).toNat) :=
  ⟨by decide,
    ⟨by decide,
      (c7_launch_failure_modes ["ls", "-al"] 0 false (by decide)).1 (-1) (by decide)⟩,
    (c7_launch_failure_modes ["ls", "-al"] 0 true (by decide)).2.1 (by decide),
    ⟨by decide,
      (c7_launch_failure_modes ["ls", "-al"] 0 false (by decide)).2.2 51942 (by decide)⟩⟩

/-- C8 counterexample: invoked with no arguments at all, the program is not
stopped by any usage check — with `fork` returning child pid 7, setup ends
in `traced 7` and the tracer proceeds to the initial wait and the trace
loop, instead of printing a diagnostic and terminating with exit code 1. -/
theorem c8_counterexample_no_args_traces :
    setupStep [] 3 7 false = SetupResult.traced 7 ∧
    mainModel wTable [] 3 7 false 0x57f [] =
      ProgramOutcome.traceRun 7 (runTrace wTable 7 []) := by
  constructor <;> decide

/-- C8 amended: there is no usage check. With no arguments the launch path
runs anyway: a parent fork return proceeds to tracing, while in the child the
`&cmd[0]` indexing of the empty argument vector panics. With a non-numeric
value after `-p`, `parse::<u64>().unwrap()` panics — the process aborts with
a panic diagnostic (the panic exit status, not an orderly exit-code-1
usage error). -/
theorem c8_amended_no_usage_check (attach_ret fork_ret : Int) (ef : Bool)
    (s : String) (hfr : 0 < fork_ret) (hs : parseU64 s = none) :
    setupStep [] attach_ret fork_ret ef = SetupResult.traced fork_ret.toNat ∧
    setupStep [] attach_ret 0 ef = SetupResult.childPanicked ∧
    setupStep ["-p", s] attach_ret fork_ret ef = SetupResult.tracerPanicked := by
  refine ⟨?_, ?_, ?_⟩
  · show launchMode [] fork_ret ef = _
    rw [launchMode, if_neg (by omega : ¬fork_ret = 0),
      if_neg (by omega : ¬fork_ret < 0)]
  · rfl
  · simp [setupStep, hs]

/-- C8 amended witness: no-argument invocation with parent fork return 7,
the corresponding child, and `-p abc`. -/
theorem c8_amended_no_usage_check_witness :
    ((0 : Int) < 7 ∧ parseU64 ("abc") = none) ∧
    (setupStep [] 3 7 true = SetupResult.traced (7 : Int).toNat ∧
      setupStep [] 3 0 true = SetupResult.childPanicked ∧
      setupStep ["-p", "abc"] 3 7 true = SetupResult.tracerPanicked) :=
  ⟨⟨by decide, by decide⟩,
    c8_amended_no_usage_check 3 7 true ("abc") (by decide) (by decide)⟩

end Stalker
